import Mathlib

/-!
Shallow embedding of kismet's `src/plugintracker.h`: the plugin descriptor
data model (`PluginRegistrationData`), the external HTTP plugin harness
constructor (`ExternalHttpPluginHarness`), and — modelled from the spec where
the repository ships only declarations — the lifecycle passes
(`ActivatePlugins`, `FinalizePlugins`) and the HTTP introspection endpoint.

Opaque native-module handles (`void *dlfile`) are modelled as natural-number
identifiers wrapped in `Option` (`none` = `NULL`).  Side effects (messages,
`dlclose`, resource allocation, process launch) are modelled as explicit event
traces so that ordering and multiplicity claims can be stated.
-/

namespace Plugintracker

/-- Opaque native-module handle (`void *` returned by `dlopen`); `none`
models the `NULL` pointer. -/
abbrev Handle := Nat

/-- Opaque identifier for an `ExternalHttpPluginHarness` instance held by a
descriptor's `external_http` shared pointer. -/
abbrev HarnessId := Nat

/-- The tracked string fields of `PluginRegistrationData`, as registered in
`register_fields` (`kismet.plugin.name`, `.description`, `.author`,
`.version`, `.shared_object`, `.http_helper`, `.dirname`, `.path`,
`.jsmodule`).  Tracker-element strings default-construct to the empty
string. -/
structure PluginFields where
  plugin_name : String := ""
  plugin_description : String := ""
  plugin_author : String := ""
  plugin_version : String := ""
  plugin_so : String := ""
  plugin_http_external : String := ""
  plugin_dirname : String := ""
  plugin_path : String := ""
  plugin_js : String := ""
deriving DecidableEq, Repr

/-- `PluginRegistrationData`: tracked string fields plus the two owned
resources, the native-module handle `dlfile` (a raw `void *`) and the
`external_http` harness shared pointer.  `tracker_id` models the optional
`in_id` passed to the `tracker_component` base. -/
structure PluginRegistrationData where
  tracker_id : Option Nat := none
  fields : PluginFields := {}
  dlfile : Option Handle := none
  external_http : Option HarnessId := none
deriving DecidableEq, Repr

/-- The zero-argument constructor `PluginRegistrationData()`: registers and
reserves fields (all strings empty) and sets `dlfile = NULL`. -/
def PluginRegistrationData.mkDefault : PluginRegistrationData :=
  { tracker_id := none, fields := {}, dlfile := none, external_http := none }

/-- The constructor `PluginRegistrationData(int in_id)`: same, recording the
tracker id; `dlfile = NULL`. -/
def PluginRegistrationData.mkWithId (in_id : Nat) : PluginRegistrationData :=
  { tracker_id := some in_id, fields := {}, dlfile := none, external_http := none }

/-- The constructor `PluginRegistrationData(int in_id, shared_ptr<tracker_element_map> e)`:
`reserve_fields(e)` imports the field values from the supplied element map
(modelled as a `PluginFields` record); `dlfile = NULL` regardless. -/
def PluginRegistrationData.mkWithIdMap (in_id : Nat) (e : PluginFields) :
    PluginRegistrationData :=
  { tracker_id := some in_id, fields := e, dlfile := none, external_http := none }

/-- `clone_type()`: allocates a fresh descriptor via the zero-argument
constructor (`new this_t()`); nothing of the receiver is copied. -/
def PluginRegistrationData.clone_type (_d : PluginRegistrationData) :
    PluginRegistrationData :=
  PluginRegistrationData.mkDefault

/-- `clone_type(int in_id)`: allocates a fresh descriptor via the
one-argument constructor (`new this_t(in_id)`). -/
def PluginRegistrationData.clone_type_id (_d : PluginRegistrationData)
    (in_id : Nat) : PluginRegistrationData :=
  PluginRegistrationData.mkWithId in_id

/-- Resource-release events fired while a `PluginRegistrationData` object is
destroyed. -/
inductive DtorEvent where
  | closeHandle (h : Handle)
  | releaseHarness (hn : HarnessId)
deriving DecidableEq, Repr

/-- The destructor `~PluginRegistrationData()` as an ordered event trace,
following C++ destruction semantics: the destructor body runs first
(`if (dlfile != NULL) dlclose(dlfile);`), then the data members are
destroyed in reverse declaration order, which releases the
`external_http` shared pointer (the raw pointer `dlfile` itself has no
destructor). -/
def destructorEvents (d : PluginRegistrationData) : List DtorEvent :=
  (match d.dlfile with
   | some h => [DtorEvent.closeHandle h]
   | none => []) ++
  (match d.external_http with
   | some hn => [DtorEvent.releaseHarness hn]
   | none => [])

/-- `a` occurs strictly before `b` in the trace `l` (both must occur). -/
def occursBefore (l : List DtorEvent) (a b : DtorEvent) : Prop :=
  a ∈ l ∧ b ∈ l ∧ l.indexOf a < l.indexOf b

instance (l : List DtorEvent) (a b : DtorEvent) :
    Decidable (occursBefore l a b) := by
  unfold occursBefore; infer_instance

/-! ## External HTTP plugin harness constructor -/

/-- Side effects performed by the `ExternalHttpPluginHarness` constructor,
in program order. -/
inductive HarnessEvent where
  | msgFatal (binary : String)
  | setFatalCondition
  | setExternalBinary (binary : String)
  | allocRingbuf (r_sz w_sz : Nat)
  | createIpcRemote
  | fetchBinaryPaths
  | msgErrorNoPath
  | addPath (p : String)
  | launchBinary (binary : String)
  | msgErrorLaunchFail (plugin binary : String)
deriving DecidableEq, Repr

/-- Host environment read by the harness constructor: the configured
`helper_binary_path` option vector, the config's `expand_log_path`
expansion, and the (synchronously determined) return value of
`ipc_remote->launch_kis_binary`. -/
structure HarnessEnv where
  helper_binary_path : List String
  expand_log_path : String → String
  launch_result : Int

/-- Observable outcome of running the `ExternalHttpPluginHarness`
constructor: its event trace plus the final state of the harness object and
of the host's fatal flag. -/
structure HarnessResult where
  events : List HarnessEvent
  fatal_condition : Bool
  external_binary : Option String
  ringbuf_allocated : Bool
  ipc_created : Bool
  search_paths : List String
deriving Repr

/-- The `ExternalHttpPluginHarness(std::string plugin_name, std::string binary)`
constructor body.  A binary name containing `/`
(`binary.find("/") != std::string::npos`) raises the fatal message, sets
`Globalreg::globalreg->fatal_condition = 1` and returns at once.  Otherwise
it stores `external_binary`, allocates the 1 MiB / 1 MiB ring-buffer pair,
creates the `ipc_remote_v2`, fetches `helper_binary_path` from the config
(substituting `%B` with a logged error when the vector is empty), adds each
expanded path, and launches the helper once, logging — and doing nothing
else — when the launch returns negative. -/
def ExternalHttpPluginHarness (env : HarnessEnv)
    (plugin_name binary : String) : HarnessResult :=
  if binary.data.contains '/' then
    { events := [HarnessEvent.msgFatal binary, HarnessEvent.setFatalCondition],
      fatal_condition := true,
      external_binary := none,
      ringbuf_allocated := false,
      ipc_created := false,
      search_paths := [] }
  else
    let bin_paths := env.helper_binary_path
    let no_cfg := bin_paths.isEmpty
    let bin_paths2 := if no_cfg then ["%B"] else bin_paths
    let expanded := bin_paths2.map env.expand_log_path
    { events :=
        [HarnessEvent.setExternalBinary binary,
         HarnessEvent.allocRingbuf (1024 * 1024) (1024 * 1024),
         HarnessEvent.createIpcRemote,
         HarnessEvent.fetchBinaryPaths] ++
        (if no_cfg then [HarnessEvent.msgErrorNoPath] else []) ++
        expanded.map HarnessEvent.addPath ++
        [HarnessEvent.launchBinary binary] ++
        (if env.launch_result < 0 then
          [HarnessEvent.msgErrorLaunchFail plugin_name binary]
         else []),
      fatal_condition := false,
      external_binary := some binary,
      ringbuf_allocated := true,
      ipc_created := true,
      search_paths := expanded }

/-- On a binary name containing a path separator the constructor emits
exactly the fatal message and the fatal-condition store, and nothing else. -/
theorem harness_slash_trace (env : HarnessEnv) (plugin_name binary : String)
    (h : binary.data.contains '/' = true) :
    ExternalHttpPluginHarness env plugin_name binary =
      { events := [HarnessEvent.msgFatal binary, HarnessEvent.setFatalCondition],
        fatal_condition := true,
        external_binary := none,
        ringbuf_allocated := false,
        ipc_created := false,
        search_paths := [] } := by
  have h' : '/' ∈ binary.data := by simpa using h
  unfold ExternalHttpPluginHarness
  simp [h']

/-- Concrete environment used by harness witnesses: one configured search
path, identity path expansion, successful launch. -/
def harnessEnvOk : HarnessEnv :=
  { helper_binary_path := ["/usr/bin"],
    expand_log_path := id,
    launch_result := 0 }

/-- Concrete environment with an empty `helper_binary_path` vector. -/
def harnessEnvNoCfg : HarnessEnv :=
  { helper_binary_path := [],
    expand_log_path := id,
    launch_result := 0 }

/-- Concrete environment whose helper launch fails. -/
def harnessEnvLaunchFail : HarnessEnv :=
  { helper_binary_path := ["/usr/bin"],
    expand_log_path := id,
    launch_result := -1 }

/-- Claim C1: constructing the harness with a helper binary name containing
`/` sets the host fatal condition after the fatal message, and the
constructor never adds a search path nor launches the helper. -/
theorem c1_harness_slash_fatal (env : HarnessEnv) (plugin_name binary : String)
    (h : binary.data.contains '/' = true) :
    (ExternalHttpPluginHarness env plugin_name binary).fatal_condition = true
    ∧ HarnessEvent.msgFatal binary ∈
        (ExternalHttpPluginHarness env plugin_name binary).events
    ∧ (∀ p, HarnessEvent.addPath p ∉
        (ExternalHttpPluginHarness env plugin_name binary).events)
    ∧ (∀ b, HarnessEvent.launchBinary b ∉
        (ExternalHttpPluginHarness env plugin_name binary).events) := by
  rw [harness_slash_trace env plugin_name binary h]
  refine ⟨rfl, by simp, ?_, ?_⟩ <;> intro x <;> simp

/-- Witness for C1 at the concrete binary name `evil/bin`. -/
theorem c1_harness_slash_fatal_witness :
    ("evil/bin").data.contains '/' = true
    ∧ ((ExternalHttpPluginHarness harnessEnvOk "plug" "evil/bin").fatal_condition = true
      ∧ HarnessEvent.msgFatal "evil/bin" ∈
          (ExternalHttpPluginHarness harnessEnvOk "plug" "evil/bin").events
      ∧ (∀ p, HarnessEvent.addPath p ∉
          (ExternalHttpPluginHarness harnessEnvOk "plug" "evil/bin").events)
      ∧ (∀ b, HarnessEvent.launchBinary b ∉
          (ExternalHttpPluginHarness harnessEnvOk "plug" "evil/bin").events)) :=
  ⟨by decide, c1_harness_slash_fatal harnessEnvOk "plug" "evil/bin" (by decide)⟩

/-- Claim C10: when the harness rejects a binary name containing `/`, the
constructor performs no other side effect: no ring buffer is allocated, no
remote-process object is created, the configuration is never fetched, and
`external_binary` is never stored. -/
theorem c10_harness_slash_frame (env : HarnessEnv) (plugin_name binary : String)
    (h : binary.data.contains '/' = true) :
    (ExternalHttpPluginHarness env plugin_name binary).ringbuf_allocated = false
    ∧ (ExternalHttpPluginHarness env plugin_name binary).ipc_created = false
    ∧ (ExternalHttpPluginHarness env plugin_name binary).external_binary = none
    ∧ (ExternalHttpPluginHarness env plugin_name binary).search_paths = []
    ∧ (∀ b, HarnessEvent.setExternalBinary b ∉
        (ExternalHttpPluginHarness env plugin_name binary).events)
    ∧ (∀ r w, HarnessEvent.allocRingbuf r w ∉
        (ExternalHttpPluginHarness env plugin_name binary).events)
    ∧ HarnessEvent.createIpcRemote ∉
        (ExternalHttpPluginHarness env plugin_name binary).events
    ∧ HarnessEvent.fetchBinaryPaths ∉
        (ExternalHttpPluginHarness env plugin_name binary).events := by
  rw [harness_slash_trace env plugin_name binary h]
  refine ⟨rfl, rfl, rfl, rfl, ?_, ?_, by simp, by simp⟩
  · intro b; simp
  · intro r w; simp

/-- Witness for C10 at the concrete binary name `../sbin/sh`. -/
theorem c10_harness_slash_frame_witness :
    ("../sbin/sh").data.contains '/' = true
    ∧ ((ExternalHttpPluginHarness harnessEnvOk "plug" "../sbin/sh").ringbuf_allocated = false
      ∧ (ExternalHttpPluginHarness harnessEnvOk "plug" "../sbin/sh").ipc_created = false
      ∧ (ExternalHttpPluginHarness harnessEnvOk "plug" "../sbin/sh").external_binary = none
      ∧ (ExternalHttpPluginHarness harnessEnvOk "plug" "../sbin/sh").search_paths = []
      ∧ (∀ b, HarnessEvent.setExternalBinary b ∉
          (ExternalHttpPluginHarness harnessEnvOk "plug" "../sbin/sh").events)
      ∧ (∀ r w, HarnessEvent.allocRingbuf r w ∉
          (ExternalHttpPluginHarness harnessEnvOk "plug" "../sbin/sh").events)
      ∧ HarnessEvent.createIpcRemote ∉
          (ExternalHttpPluginHarness harnessEnvOk "plug" "../sbin/sh").events
      ∧ HarnessEvent.fetchBinaryPaths ∉
          (ExternalHttpPluginHarness harnessEnvOk "plug" "../sbin/sh").events) :=
  ⟨by decide, c10_harness_slash_frame harnessEnvOk "plug" "../sbin/sh" (by decide)⟩

/-- Claim C7: when the fetched `helper_binary_path` option vector is empty,
the constructor logs the warning, falls back to `%B` (the install location
template) as the single search path, does not raise the fatal condition,
and continues: the binary name is stored and the helper launch is still
attempted. -/
theorem c7_harness_empty_config (env : HarnessEnv) (plugin_name binary : String)
    (hcfg : env.helper_binary_path = [])
    (hbin : binary.data.contains '/' = false) :
    HarnessEvent.msgErrorNoPath ∈
        (ExternalHttpPluginHarness env plugin_name binary).events
    ∧ (ExternalHttpPluginHarness env plugin_name binary).search_paths
        = [env.expand_log_path "%B"]
    ∧ (ExternalHttpPluginHarness env plugin_name binary).fatal_condition = false
    ∧ (ExternalHttpPluginHarness env plugin_name binary).external_binary
        = some binary
    ∧ HarnessEvent.launchBinary binary ∈
        (ExternalHttpPluginHarness env plugin_name binary).events := by
  have h' : ¬ ('/' ∈ binary.data) := by simpa using hbin
  unfold ExternalHttpPluginHarness
  simp [h', hcfg]

/-- Witness for C7 at a concrete empty-configuration environment. -/
theorem c7_harness_empty_config_witness :
    harnessEnvNoCfg.helper_binary_path = []
    ∧ ("kismet_helper").data.contains '/' = false
    ∧ (HarnessEvent.msgErrorNoPath ∈
        (ExternalHttpPluginHarness harnessEnvNoCfg "plug" "kismet_helper").events
      ∧ (ExternalHttpPluginHarness harnessEnvNoCfg "plug" "kismet_helper").search_paths
          = [harnessEnvNoCfg.expand_log_path "%B"]
      ∧ (ExternalHttpPluginHarness harnessEnvNoCfg "plug" "kismet_helper").fatal_condition = false
      ∧ (ExternalHttpPluginHarness harnessEnvNoCfg "plug" "kismet_helper").external_binary
          = some "kismet_helper"
      ∧ HarnessEvent.launchBinary "kismet_helper" ∈
          (ExternalHttpPluginHarness harnessEnvNoCfg "plug" "kismet_helper").events) :=
  ⟨rfl, by decide,
    c7_harness_empty_config harnessEnvNoCfg "plug" "kismet_helper" rfl (by decide)⟩

/-- Claim C8: when `launch_kis_binary` returns negative, the constructor
logs the failure with the plugin's identity and the binary name, does not
set the fatal condition, performs exactly one launch attempt (no retry),
and the error message is the last effect before the constructor returns. -/
theorem c8_harness_launch_fail (env : HarnessEnv) (plugin_name binary : String)
    (hbin : binary.data.contains '/' = false)
    (hneg : env.launch_result < 0) :
    HarnessEvent.msgErrorLaunchFail plugin_name binary ∈
        (ExternalHttpPluginHarness env plugin_name binary).events
    ∧ (ExternalHttpPluginHarness env plugin_name binary).fatal_condition = false
    ∧ HarnessEvent.setFatalCondition ∉
        (ExternalHttpPluginHarness env plugin_name binary).events
    ∧ (ExternalHttpPluginHarness env plugin_name binary).events.count
        (HarnessEvent.launchBinary binary) = 1
    ∧ (ExternalHttpPluginHarness env plugin_name binary).events.getLast?
        = some (HarnessEvent.msgErrorLaunchFail plugin_name binary) := by
  have h' : ¬ ('/' ∈ binary.data) := by simpa using hbin
  unfold ExternalHttpPluginHarness
  refine ⟨by simp [h', hneg], by simp [h'], by simp [h'], ?_, ?_⟩
  · have hif : List.count (HarnessEvent.launchBinary binary)
        (if env.helper_binary_path = [] then [HarnessEvent.msgErrorNoPath] else [])
        = 0 := by
      split <;> simp
    have hmap : List.count (HarnessEvent.launchBinary binary)
        (List.map (HarnessEvent.addPath ∘ env.expand_log_path)
          (if env.helper_binary_path = [] then ["%B"] else env.helper_binary_path))
        = 0 := by
      rw [List.count_eq_zero]
      simp
    simp [h', hneg, List.count_append, hif, hmap]
  · have hshape : ∀ (x : HarnessEvent) (A B : List HarnessEvent)
        (a b : HarnessEvent),
        (x :: (A ++ (B ++ [a, b]))).getLast? = some b := by
      intro x A B a b
      have h2 : x :: (A ++ (B ++ [a, b])) = (x :: (A ++ (B ++ [a]))) ++ [b] := by
        simp
      rw [h2, List.getLast?_concat]
    simp only [h', hneg]
    simp [h', hneg]
    exact hshape _ _ _ _ _

/-- Witness for C8 at a concrete failing-launch environment. -/
theorem c8_harness_launch_fail_witness :
    ("kismet_helper").data.contains '/' = false
    ∧ harnessEnvLaunchFail.launch_result < 0
    ∧ (HarnessEvent.msgErrorLaunchFail "plug" "kismet_helper" ∈
        (ExternalHttpPluginHarness harnessEnvLaunchFail "plug" "kismet_helper").events
      ∧ (ExternalHttpPluginHarness harnessEnvLaunchFail "plug" "kismet_helper").fatal_condition = false
      ∧ HarnessEvent.setFatalCondition ∉
          (ExternalHttpPluginHarness harnessEnvLaunchFail "plug" "kismet_helper").events
      ∧ (ExternalHttpPluginHarness harnessEnvLaunchFail "plug" "kismet_helper").events.count
          (HarnessEvent.launchBinary "kismet_helper") = 1
      ∧ (ExternalHttpPluginHarness harnessEnvLaunchFail "plug" "kismet_helper").events.getLast?
          = some (HarnessEvent.msgErrorLaunchFail "plug" "kismet_helper")) :=
  ⟨by decide, by decide,
    c8_harness_launch_fail harnessEnvLaunchFail "plug" "kismet_helper" (by decide) (by decide)⟩

/-! ## Descriptor handle ownership and destruction -/

/-- Claim C9: every constructor of `PluginRegistrationData` initializes the
native-module handle to null, and both `clone_type` overloads produce a
fresh descriptor whose handle (and harness) is null regardless of the
receiver, so a handle's ownership is never duplicated by cloning. -/
theorem c9_dlfile_null_until_load :
    PluginRegistrationData.mkDefault.dlfile = none
    ∧ (∀ in_id, (PluginRegistrationData.mkWithId in_id).dlfile = none)
    ∧ (∀ in_id e, (PluginRegistrationData.mkWithIdMap in_id e).dlfile = none)
    ∧ (∀ d : PluginRegistrationData,
        d.clone_type.dlfile = none ∧ d.clone_type.external_http = none)
    ∧ (∀ (d : PluginRegistrationData) (in_id : Nat),
        (d.clone_type_id in_id).dlfile = none
        ∧ (d.clone_type_id in_id).external_http = none) :=
  ⟨rfl, fun _ => rfl, fun _ _ => rfl, fun _ => ⟨rfl, rfl⟩, fun _ _ => ⟨rfl, rfl⟩⟩

/-- Claim C3: destroying a descriptor with a non-null handle fires the close
operation on that handle exactly once; a null handle is never closed, and a
descriptor with neither handle nor harness releases nothing. -/
theorem c3_destructor_close_exactly_once (d : PluginRegistrationData)
    (h : Handle) (hd : d.dlfile = some h) :
    (destructorEvents d).count (DtorEvent.closeHandle h) = 1
    ∧ (∀ d2 : PluginRegistrationData, d2.dlfile = none →
        ∀ h2, DtorEvent.closeHandle h2 ∉ destructorEvents d2)
    ∧ (∀ d3 : PluginRegistrationData, d3.dlfile = none →
        d3.external_http = none → destructorEvents d3 = []) := by
  refine ⟨?_, ?_, ?_⟩
  · cases hx : d.external_http <;>
      simp [destructorEvents, hd, hx, List.count_append, List.count_cons]
  · intro d2 hd2 h2
    cases hx : d2.external_http <;> simp [destructorEvents, hd2, hx]
  · intro d3 hd3 hx3
    simp [destructorEvents, hd3, hx3]

/-- Concrete descriptor owning both a native handle and a harness. -/
def descBoth : PluginRegistrationData :=
  { tracker_id := none, fields := {}, dlfile := some 5, external_http := some 7 }

/-- Witness for C3 at a concrete descriptor holding handle `5`. -/
theorem c3_destructor_close_exactly_once_witness :
    descBoth.dlfile = some 5
    ∧ ((destructorEvents descBoth).count (DtorEvent.closeHandle 5) = 1
      ∧ (∀ d2 : PluginRegistrationData, d2.dlfile = none →
          ∀ h2, DtorEvent.closeHandle h2 ∉ destructorEvents d2)
      ∧ (∀ d3 : PluginRegistrationData, d3.dlfile = none →
          d3.external_http = none → destructorEvents d3 = [])) :=
  ⟨rfl, c3_destructor_close_exactly_once descBoth 5 rfl⟩

/-- Counterexample to claim C4 as stated: at a descriptor owning both
resources, the destructor body's `dlclose` runs before the member
destructors release the `external_http` shared pointer, so the handle is
closed strictly before the harness is released — not after, as the claim
requires. -/
theorem c4_counterexample_close_precedes_release :
    destructorEvents descBoth
      = [DtorEvent.closeHandle 5, DtorEvent.releaseHarness 7]
    ∧ occursBefore (destructorEvents descBoth)
        (DtorEvent.closeHandle 5) (DtorEvent.releaseHarness 7)
    ∧ ¬ occursBefore (destructorEvents descBoth)
        (DtorEvent.releaseHarness 7) (DtorEvent.closeHandle 5) :=
  ⟨rfl, by decide, by decide⟩

/-- Claim C4 (amended): when a descriptor owning both a non-null handle and
a harness is destroyed, the destructor releases the handle first (in the
destructor body) and the harness second (during member destruction) — the
reverse of the order the original claim states. -/
theorem c4_amended_handle_then_harness (d : PluginRegistrationData)
    (h : Handle) (hn : HarnessId)
    (hd : d.dlfile = some h) (hh : d.external_http = some hn) :
    destructorEvents d
      = [DtorEvent.closeHandle h, DtorEvent.releaseHarness hn] := by
  simp [destructorEvents, hd, hh]

/-- Witness for the amended C4 at a concrete descriptor. -/
theorem c4_amended_handle_then_harness_witness :
    descBoth.dlfile = some 5
    ∧ descBoth.external_http = some 7
    ∧ destructorEvents descBoth
        = [DtorEvent.closeHandle 5, DtorEvent.releaseHarness 7] :=
  ⟨rfl, rfl, c4_amended_handle_then_harness descBoth 5 7 rfl rfl⟩

/-! ## Activation pass (spec-modelled) -/

/-- Environment for the activation pass: the results of `dlopen` on a
shared-object path and of the two resolved entry points
`kis_plugin_version_check` / `kis_plugin_activate` on an open handle. -/
structure ModuleEnv where
  dlopen : String → Option Handle
  version_check : Handle → Int
  activate : Handle → Int

/-- Events fired while activating one preload descriptor. -/
inductive ActEvent where
  | openModule (h : Handle)
  | msgOpenFail (path : String)
  | closeModule (h : Handle)
  | msgVersionFail (name : String)
  | msgActivateFail (name : String)
  | promote (name : String)
deriving DecidableEq, Repr

/-- The shared-object path `plugin_path/plugin_so` used for `dlopen`. -/
def soPath (d : PluginRegistrationData) : String :=
  d.fields.plugin_path ++ "/" ++ d.fields.plugin_so

/-- Modelled from the spec: the body of `plugin_tracker::ActivatePlugins` is
not among the sources (only its declaration in `src/plugintracker.h` is);
this models the per-descriptor step of spec §4.2.  For a descriptor with a
shared object: open the module (open failure ⇒ log, skip); invoke the
version-check entry point (negative ⇒ unload, skip); invoke the activation
entry point (negative ⇒ unload, skip); otherwise promote the descriptor,
which retains the open handle.  A descriptor with no shared object but an
external-helper path is promoted without a native handle; its harness is
deferred to finalize. -/
def activateOne (env : ModuleEnv) (d : PluginRegistrationData) :
    List ActEvent × Option PluginRegistrationData :=
  if d.fields.plugin_so ≠ "" then
    match env.dlopen (soPath d) with
    | none => ([ActEvent.msgOpenFail (soPath d)], none)
    | some h =>
      if env.version_check h < 0 then
        ([ActEvent.openModule h, ActEvent.msgVersionFail d.fields.plugin_name,
          ActEvent.closeModule h], none)
      else if env.activate h < 0 then
        ([ActEvent.openModule h, ActEvent.msgActivateFail d.fields.plugin_name,
          ActEvent.closeModule h], none)
      else
        ([ActEvent.openModule h, ActEvent.promote d.fields.plugin_name],
         some { d with dlfile := some h })
  else if d.fields.plugin_http_external ≠ "" then
    ([ActEvent.promote d.fields.plugin_name], some d)
  else
    ([], none)

/-- Modelled from the spec: `ActivatePlugins` drains the preload list in
order; each entry is either promoted into the active registry or dropped,
and every per-plugin failure is isolated. -/
def ActivatePlugins (env : ModuleEnv)
    (preload : List PluginRegistrationData) :
    List ActEvent × List PluginRegistrationData :=
  ((preload.map fun d => (activateOne env d).1).flatten,
   preload.filterMap fun d => (activateOne env d).2)

/-- Any descriptor promoted by `activateOne` either carries no native handle
(helper-only plugin) or carries a handle whose version check and activation
both returned non-negative. -/
theorem activateOne_promoted (env : ModuleEnv) (d r : PluginRegistrationData)
    (hr : (activateOne env d).2 = some r) :
    (r.dlfile = d.dlfile)
    ∨ ∃ h, r.dlfile = some h
        ∧ 0 ≤ env.version_check h ∧ 0 ≤ env.activate h := by
  unfold activateOne at hr
  by_cases hso : d.fields.plugin_so ≠ ""
  · rw [if_pos hso] at hr
    cases hop : env.dlopen (soPath d) with
    | none =>
      simp only [hop] at hr
      exact Option.noConfusion hr
    | some h =>
      simp only [hop] at hr
      by_cases hv : env.version_check h < 0
      · rw [if_pos hv] at hr
        exact Option.noConfusion hr
      · rw [if_neg hv] at hr
        by_cases ha : env.activate h < 0
        · rw [if_pos ha] at hr
          exact Option.noConfusion hr
        · rw [if_neg ha] at hr
          have hr2 : some ({ d with dlfile := some h } : PluginRegistrationData)
              = some r := hr
          rw [Option.some_inj] at hr2
          exact Or.inr ⟨h, by rw [← hr2], le_of_not_lt hv, le_of_not_lt ha⟩
  · rw [if_neg hso] at hr
    by_cases hh : d.fields.plugin_http_external ≠ ""
    · rw [if_pos hh] at hr
      have hr2 : some d = some r := hr
      rw [Option.some_inj] at hr2
      exact Or.inl (by rw [← hr2])
    · rw [if_neg hh] at hr
      exact Option.noConfusion hr

/-- Claim C2: a preload descriptor whose version check returns negative is
never promoted; its activation trace opens the module exactly once and
closes it exactly once (no leak, no double close); and no descriptor in the
registry produced by `ActivatePlugins` from any preload list of
not-yet-loaded descriptors holds the rejected handle. -/
theorem c2_version_fail_unloaded (env : ModuleEnv)
    (d : PluginRegistrationData) (h : Handle)
    (hso : d.fields.plugin_so ≠ "")
    (hopen : env.dlopen (soPath d) = some h)
    (hneg : env.version_check h < 0) :
    (activateOne env d).2 = none
    ∧ (activateOne env d).1.count (ActEvent.openModule h) = 1
    ∧ (activateOne env d).1.count (ActEvent.closeModule h) = 1
    ∧ ∀ preload : List PluginRegistrationData,
        (∀ e ∈ preload, e.dlfile = none) →
        ∀ r ∈ (ActivatePlugins env preload).2, r.dlfile ≠ some h := by
  have htr : activateOne env d
      = ([ActEvent.openModule h, ActEvent.msgVersionFail d.fields.plugin_name,
          ActEvent.closeModule h], none) := by
    unfold activateOne
    simp [hso, hopen, hneg]
  refine ⟨by rw [htr], ?_, ?_, ?_⟩
  · rw [htr]; simp [List.count_cons]
  · rw [htr]; simp [List.count_cons]
  · intro preload hnone r hr hcontra
    unfold ActivatePlugins at hr
    simp only [List.mem_filterMap] at hr
    obtain ⟨e, he, hre⟩ := hr
    rcases activateOne_promoted env e r hre with hsame | ⟨h2, hh2, hv2, _⟩
    · rw [hnone e he] at hsame
      rw [hsame] at hcontra
      exact Option.noConfusion hcontra
    · rw [hh2] at hcontra
      have : h2 = h := by
        injection hcontra
      rw [this] at hv2
      exact absurd hneg (not_lt.mpr hv2)

/-- Concrete activation environment for the C2 witness: `dlopen` always
yields handle `3`, whose version check is rejected. -/
def moduleEnvReject : ModuleEnv :=
  { dlopen := fun _ => some 3,
    version_check := fun _ => -1,
    activate := fun _ => 0 }

/-- Concrete preload descriptor with a shared object, for the C2 witness. -/
def descSo : PluginRegistrationData :=
  { tracker_id := none,
    fields := { plugin_name := "demo", plugin_so := "demo.so",
                plugin_path := "/plug/demo" },
    dlfile := none, external_http := none }

/-- Witness for C2 at a concrete rejected module. -/
theorem c2_version_fail_unloaded_witness :
    descSo.fields.plugin_so ≠ ""
    ∧ moduleEnvReject.dlopen (soPath descSo) = some 3
    ∧ moduleEnvReject.version_check 3 < 0
    ∧ ((activateOne moduleEnvReject descSo).2 = none
      ∧ (activateOne moduleEnvReject descSo).1.count (ActEvent.openModule 3) = 1
      ∧ (activateOne moduleEnvReject descSo).1.count (ActEvent.closeModule 3) = 1
      ∧ ∀ preload : List PluginRegistrationData,
          (∀ e ∈ preload, e.dlfile = none) →
          ∀ r ∈ (ActivatePlugins moduleEnvReject preload).2,
            r.dlfile ≠ some 3) :=
  ⟨by decide, rfl, by decide,
    c2_version_fail_unloaded moduleEnvReject descSo 3 (by decide) rfl (by decide)⟩

/-! ## Finalize pass (spec-modelled) -/

/-- Environment for the finalize pass: whether an open module exposes the
optional `kis_plugin_finalize` entry point and, if so, what it returns. -/
structure FinalizeEnv where
  finalize_sym : Handle → Option Int

/-- Events fired while finalizing one active descriptor. -/
inductive FinEvent where
  | invokeFinalize (h : Handle)
  | msgFinalizeFail (name : String)
  | createHarness (name : String)
deriving DecidableEq, Repr

/-- Modelled from the spec: the body of `plugin_tracker::FinalizePlugins` is
not among the sources (only its declaration in `src/plugintracker.h` is);
this models the per-descriptor step of spec §4.3.  For a descriptor with an
open native handle whose module exposes the optional finalize entry point,
invoke it; a negative return is logged and isolated — the descriptor stays
in the registry unchanged.  For a harness-only descriptor, instantiate the
External HTTP Plugin Harness now (the harness instance identifier is
immaterial to the claims and fixed at `0`). -/
def finalizeOne (env : FinalizeEnv) (d : PluginRegistrationData) :
    List FinEvent × PluginRegistrationData :=
  match d.dlfile with
  | some h =>
    match env.finalize_sym h with
    | some r =>
      if r < 0 then
        ([FinEvent.invokeFinalize h,
          FinEvent.msgFinalizeFail d.fields.plugin_name], d)
      else
        ([FinEvent.invokeFinalize h], d)
    | none => ([], d)
  | none =>
    if d.fields.plugin_http_external ≠ "" then
      ([FinEvent.createHarness d.fields.plugin_name],
       { d with external_http := some 0 })
    else
      ([], d)

/-- Modelled from the spec: `FinalizePlugins` is a second pass over the
active registry; no descriptor is removed by it. -/
def FinalizePlugins (env : FinalizeEnv)
    (registry : List PluginRegistrationData) :
    List FinEvent × List PluginRegistrationData :=
  ((registry.map fun d => (finalizeOne env d).1).flatten,
   registry.map fun d => (finalizeOne env d).2)

/-- The finalize entry point is only ever invoked on the native handle of
the descriptor being finalized. -/
theorem finalizeOne_invoke_handle (env : FinalizeEnv)
    (e : PluginRegistrationData) (h2 : Handle)
    (hmem : FinEvent.invokeFinalize h2 ∈ (finalizeOne env e).1) :
    e.dlfile = some h2 := by
  unfold finalizeOne at hmem
  cases hd : e.dlfile with
  | none =>
    simp only [hd] at hmem
    split at hmem <;> simp at hmem
  | some h3 =>
    simp only [hd] at hmem
    cases hs : env.finalize_sym h3 with
    | none =>
      simp only [hs] at hmem
      simp at hmem
    | some r =>
      simp only [hs] at hmem
      split at hmem <;> simp at hmem <;> rw [hmem]

/-- Claim C6: during `FinalizePlugins` the finalize entry point fires only
for descriptors in the active registry; a negative return is logged via the
failure message and is isolated — the descriptor's record is unchanged and
it remains in the registry, whose length is preserved. -/
theorem c6_finalize_negative_isolated (env : FinalizeEnv)
    (reg : List PluginRegistrationData) (d : PluginRegistrationData)
    (h : Handle) (r : Int)
    (hmem : d ∈ reg) (hd : d.dlfile = some h)
    (hsym : env.finalize_sym h = some r) (hneg : r < 0) :
    (finalizeOne env d).1
      = [FinEvent.invokeFinalize h, FinEvent.msgFinalizeFail d.fields.plugin_name]
    ∧ (finalizeOne env d).2 = d
    ∧ d ∈ (FinalizePlugins env reg).2
    ∧ (FinalizePlugins env reg).2.length = reg.length
    ∧ (∀ h2, FinEvent.invokeFinalize h2 ∈ (FinalizePlugins env reg).1 →
        ∃ e ∈ reg, e.dlfile = some h2) := by
  have hone : finalizeOne env d
      = ([FinEvent.invokeFinalize h,
          FinEvent.msgFinalizeFail d.fields.plugin_name], d) := by
    unfold finalizeOne
    simp [hd, hsym, hneg]
  refine ⟨by rw [hone], by rw [hone], ?_, ?_, ?_⟩
  · unfold FinalizePlugins
    simp only [List.mem_map]
    exact ⟨d, hmem, by rw [hone]⟩
  · unfold FinalizePlugins
    simp
  · intro h2 hinv
    unfold FinalizePlugins at hinv
    simp only [List.mem_flatten, List.mem_map] at hinv
    obtain ⟨l, ⟨e, he, hl⟩, hin⟩ := hinv
    rw [← hl] at hin
    exact ⟨e, he, finalizeOne_invoke_handle env e h2 hin⟩

/-- Concrete finalize environment whose entry point always fails. -/
def finalizeEnvFail : FinalizeEnv :=
  { finalize_sym := fun _ => some (-1) }

/-- Concrete active descriptor with an open handle, for the C6 witness. -/
def descActive : PluginRegistrationData :=
  { tracker_id := none,
    fields := { plugin_name := "demo", plugin_so := "demo.so",
                plugin_path := "/plug/demo" },
    dlfile := some 4, external_http := none }

/-- Witness for C6 at a concrete one-descriptor registry. -/
theorem c6_finalize_negative_isolated_witness :
    descActive ∈ [descActive]
    ∧ descActive.dlfile = some 4
    ∧ finalizeEnvFail.finalize_sym 4 = some (-1)
    ∧ (-1 : Int) < 0
    ∧ ((finalizeOne finalizeEnvFail descActive).1
        = [FinEvent.invokeFinalize 4,
           FinEvent.msgFinalizeFail descActive.fields.plugin_name]
      ∧ (finalizeOne finalizeEnvFail descActive).2 = descActive
      ∧ descActive ∈ (FinalizePlugins finalizeEnvFail [descActive]).2
      ∧ (FinalizePlugins finalizeEnvFail [descActive]).2.length
          = [descActive].length
      ∧ (∀ h2, FinEvent.invokeFinalize h2 ∈
            (FinalizePlugins finalizeEnvFail [descActive]).1 →
          ∃ e ∈ [descActive], e.dlfile = some h2)) :=
  ⟨List.mem_singleton.mpr rfl, rfl, rfl, by decide,
    c6_finalize_negative_isolated finalizeEnvFail [descActive] descActive 4 (-1)
      (List.mem_singleton.mpr rfl) rfl rfl (by decide)⟩

/-! ## Introspection endpoint (spec-modelled) -/

/-- Modelled from the spec: the one fixed introspection path served by
`plugin_tracker`'s HTTP handler; the bodies of `httpd_verify_path` and
`httpd_create_stream_response` are not among the sources (only their
declarations in `src/plugintracker.h` are), and the spec fixes a single
path whose literal value it does not name. -/
def introspection_path : String := "/plugins/all_plugins.json"

/-- One serialized descriptor record, carrying the manifest fields the
HTTP surface exposes (name, description, author, version, directory,
install path, js-module path, http-helper path). -/
structure PluginRecord where
  name : String
  description : String
  author : String
  version : String
  dirname : String
  path : String
  jsmodule : String
  http_helper : String
deriving DecidableEq, Repr

/-- Serialization of one active descriptor: the manifest fields are copied
verbatim. -/
def serializeRecord (d : PluginRegistrationData) : PluginRecord :=
  { name := d.fields.plugin_name,
    description := d.fields.plugin_description,
    author := d.fields.plugin_author,
    version := d.fields.plugin_version,
    dirname := d.fields.plugin_dirname,
    path := d.fields.plugin_path,
    jsmodule := d.fields.plugin_js,
    http_helper := d.fields.plugin_http_external }

/-- Modelled from the spec: the path-verification predicate accepts exactly
the one fixed introspection path with the `GET` method. -/
def httpd_verify_path (path method : String) : Bool :=
  method == "GET" && path == introspection_path

/-- Modelled from the spec: the stream-response handler first checks the
path-verification predicate; on rejection no response body or record is
produced (`none`), otherwise it serializes one record per active
descriptor, in registry order. -/
def httpd_create_stream_response
    (registry : List PluginRegistrationData) (path method : String) :
    Option (List PluginRecord) :=
  if httpd_verify_path path method then
    some (registry.map serializeRecord)
  else
    none

/-- Claim C5: a `GET` on the introspection path returns exactly one record
per active plugin with the manifest fields preserved verbatim; every other
(path, method) pair fails the path-verification predicate and produces no
response body. -/
theorem c5_introspection_get_only (registry : List PluginRegistrationData) :
    httpd_verify_path introspection_path "GET" = true
    ∧ httpd_create_stream_response registry introspection_path "GET"
        = some (registry.map serializeRecord)
    ∧ (registry.map serializeRecord).length = registry.length
    ∧ (∀ d ∈ registry,
        serializeRecord d ∈ registry.map serializeRecord
        ∧ (serializeRecord d).name = d.fields.plugin_name
        ∧ (serializeRecord d).description = d.fields.plugin_description
        ∧ (serializeRecord d).author = d.fields.plugin_author
        ∧ (serializeRecord d).version = d.fields.plugin_version
        ∧ (serializeRecord d).dirname = d.fields.plugin_dirname
        ∧ (serializeRecord d).path = d.fields.plugin_path
        ∧ (serializeRecord d).jsmodule = d.fields.plugin_js
        ∧ (serializeRecord d).http_helper = d.fields.plugin_http_external)
    ∧ (∀ p m, ¬(p = introspection_path ∧ m = "GET") →
        httpd_verify_path p m = false
        ∧ httpd_create_stream_response registry p m = none) := by
  refine ⟨rfl, ?_, by simp, ?_, ?_⟩
  · unfold httpd_create_stream_response
    rfl
  · intro d hd
    exact ⟨List.mem_map_of_mem serializeRecord hd,
      rfl, rfl, rfl, rfl, rfl, rfl, rfl, rfl⟩
  · intro p m hpm
    have hv : httpd_verify_path p m = false := by
      unfold httpd_verify_path
      by_cases hp : p = introspection_path
      · by_cases hm : m = "GET"
        · exact absurd ⟨hp, hm⟩ hpm
        · simp [hm]
      · simp [hp]
    exact ⟨hv, by simp [httpd_create_stream_response, hv]⟩

/-- Witness for C5 at a concrete one-descriptor registry, a rejected path,
and a rejected method. -/
theorem c5_introspection_get_only_witness :
    httpd_create_stream_response [descSo] introspection_path "GET"
      = some [serializeRecord descSo]
    ∧ httpd_verify_path "/devices/all_devices.json" "GET" = false
    ∧ httpd_create_stream_response [descSo] "/devices/all_devices.json" "GET" = none
    ∧ httpd_verify_path introspection_path "POST" = false := by
  have h := c5_introspection_get_only [descSo]
  have hbad1 := h.2.2.2.2 "/devices/all_devices.json" "GET" (by decide)
  have hbad2 := h.2.2.2.2 introspection_path "POST" (by decide)
  exact ⟨h.2.1, hbad1.1, hbad1.2, hbad2.1⟩

end Plugintracker
